import Mathlib

/-!
Verification of the incremental resolution-cache / document-registry verifier.

This file gives a shallow embedding of the verifier found in the repository
(the file containing `verifyResolutionCache`, `verifyDocumentRegistryStats`,
`getProgramStructure` and friends) and proves, or refutes, the claims made
about it.

Modelling conventions:
- JavaScript object identity of live `ResolutionWithFailedLookupLocations`
  objects is modelled by a numeric id (`RId`); the data carried by a live
  resolution object lives in a heap `RId -> ResolutionData`.  Identity of the
  shadow `ExpectedResolution` objects is likewise an `EId`.
- `Map` and `Set` values are modelled as association lists / lists, iterated
  in insertion order exactly as the source iterates them with `forEach`.
- TypeScript `undefined` is modelled with `Option`; JavaScript truthiness of
  an optional number (`!!x`) is modelled as `x.getD 0 != 0`.
- Each `Debug.assert(cond, ...)` of the source becomes one Boolean conjunct;
  a verification function returns `true` exactly when no assertion fires.
-/

/-- A file path (ts.Path). -/
abbrev TsPath := String

/-- Identity of a live `ResolutionWithFailedLookupLocations` object. -/
abbrev RId := Nat

/-- Identity of a shadow `ExpectedResolution` object. -/
abbrev EId := Nat

/-- ts.ResolutionMode: `undefined` or a module-kind enum value. -/
abbrev TsResolutionMode := Option Nat

/-- The id reserved for the `ts.emptyResolution` sentinel object. -/
def emptyResolutionId : RId := 0

/-- The `ResolutionInfo` record of the source: one collected
(cacheType, file, name, mode) reference to a resolution. -/
structure ResolutionInfo where
  cacheType : String
  fileName : TsPath
  name : String
  mode : TsResolutionMode
deriving DecidableEq, Repr

/-- Data of a live `ts.ResolutionWithFailedLookupLocations`.  The two
`resolved*` fields hold the `resolvedFileName` reachable through
`resolvedModule` / `resolvedTypeReferenceDirective` (the only part the
verifier reads). `refCount` and `files` are optional in the TypeScript type. -/
structure ResolutionData where
  resolvedModule : Option String
  resolvedTypeReferenceDirective : Option String
  failedLookupLocations : List String
  affectingLocations : List String
  node10Result : Option String
  isInvalidated : Bool
  refCount : Option Nat
  files : Option (List TsPath)
deriving DecidableEq, Repr

/-- The shadow `ExpectedResolution` built by `collectResolution`: a structural
copy of a live resolution, whose `refCount`/`files` are produced by replaying
the watch protocol on the shadow cache. -/
structure ExpectedResolution where
  resolvedModule : Option String
  resolvedTypeReferenceDirective : Option String
  failedLookupLocations : List String
  affectingLocations : List String
  node10Result : Option String
  refCount : Option Nat
  files : Option (List TsPath)
deriving DecidableEq, Repr

/-- A per-file `ts.ModeAwareCache` mapping (name, mode) to a resolution id. -/
abbrev ModeAwareCache := List ((String × TsResolutionMode) × RId)

/-- ModeAwareCache.get. -/
def maGet (c : ModeAwareCache) (name : String) (mode : TsResolutionMode) : Option RId :=
  List.lookup (name, mode) c

/-- ModeAwareCache.has. -/
def maHas (c : ModeAwareCache) (name : String) (mode : TsResolutionMode) : Bool :=
  (maGet c name mode).isSome

/-- ts.DirectoryWatchesOfFailedLookup: ref-counted directory watch. -/
structure DirectoryWatchesOfFailedLookup where
  refCount : Nat
  nonRecursive : Option Bool
deriving DecidableEq, Repr

/-- ts.FileWatcherOfAffectingLocation: `resolutions` and `files` are reference
counts (numbers) in the TypeScript type; `symlinks` is an optional set. -/
structure FileWatcherOfAffectingLocation where
  resolutions : Nat
  files : Nat
  symlinks : Option (List String)
deriving DecidableEq, Repr

/-- The aggregate state of a `ts.ResolutionCache` that the verifier touches. -/
structure ResolutionCacheState where
  resolvedModuleNames : List (TsPath × ModeAwareCache)
  resolvedTypeReferenceDirectives : List (TsPath × ModeAwareCache)
  resolvedLibraries : List (String × RId)
  resolvedFileToResolution : List (TsPath × List RId)
  resolutionsWithFailedLookups : List RId
  resolutionsWithOnlyAffectingLocations : List RId
  directoryWatchesOfFailedLookups : List (String × DirectoryWatchesOfFailedLookup)
  fileWatchesOfAffectingLocations : List (String × FileWatcherOfAffectingLocation)
deriving DecidableEq, Repr

/-- Source file data read by the verifier / serializer. -/
structure SourceFileData where
  fileName : String
  path : TsPath
  resolvedPath : TsPath
  impliedNodeFormat : Option Nat
  text : String
deriving DecidableEq, Repr

/-- A lib resolution entry (`ts.LibResolution`). -/
structure LibResolution where
  actual : String
  resolution : RId
deriving DecidableEq, Repr

/-- The view of a `ts.Program` consumed by the verifier: source files, and the
per-file module / type-reference resolutions plus the automatic
type-directive resolutions and resolved lib references. -/
structure ProgramState where
  sourceFiles : List SourceFileData
  resolvedModules : List (TsPath × ModeAwareCache)
  resolvedTypeReferenceDirectives : List (TsPath × ModeAwareCache)
  automaticTypeDirectiveResolutions : ModeAwareCache
  resolvedLibReferences : Option (List (String × LibResolution))
deriving DecidableEq, Repr

/-- Program.getSourceFileByPath. -/
def getSourceFileByPath (p : ProgramState) (path : TsPath) : Option SourceFileData :=
  p.sourceFiles.find? (fun f => f.path == path)

/-- Flatten per-file mode-aware caches into the flat (filePath, key, id) view
iterated by `Program.forEachResolvedModule` and friends. -/
def flatResolutions (l : List (TsPath × ModeAwareCache)) :
    List (TsPath × ((String × TsResolutionMode) × RId)) :=
  l.flatMap (fun pc => pc.2.map (fun kv => (pc.1, kv)))

/-- Option-chained membership in an optional set of strings
(JS: `s?.has(x)` with a falsy default). -/
def optHas (s : Option (List String)) (x : String) : Bool :=
  (s.map (fun l => l.contains x)).getD false

/-- The source `verifySet`: two-way containment between two optional sets,
each missing side treated as skipping its direction but failing the other. -/
def verifySet (expected actual : Option (List String)) : Bool :=
  ((expected.getD []).all fun x => optHas actual x) &&
  ((actual.getD []).all fun x => optHas expected x)

/-- Look up a key in an optional association list (JS: `m?.get(k)`). -/
def optLookup {α : Type} (m : Option (List (String × α))) (k : String) : Option α :=
  m.bind (fun l => List.lookup k l)

/-- The source `verifyMap`: run `verifyValue` for every key of the expected
map against the actual map and vice versa. -/
def verifyMap {α β : Type} (expected : Option (List (String × α)))
    (actual : Option (List (String × β)))
    (verifyValue : Option α → Option β → Bool) : Bool :=
  ((expected.getD []).all fun kv => verifyValue (some kv.2) (optLookup actual kv.1)) &&
  ((actual.getD []).all fun kv => verifyValue (optLookup expected kv.1) (some kv.2))

/-- Value check of `verifyDirectoryWatchesOfFailedLookups`: refCounts agree,
the expected refCount is truthy, and the `nonRecursive` flags agree. -/
def verifyDirWatchValue (expected actual : Option DirectoryWatchesOfFailedLookup) : Bool :=
  ((expected.map (fun w => w.refCount)) == (actual.map (fun w => w.refCount))) &&
  (((expected.map (fun w => w.refCount)).getD 0) != 0) &&
  ((expected.bind (fun w => w.nonRecursive)) == (actual.bind (fun w => w.nonRecursive)))

/-- The source `verifyDirectoryWatchesOfFailedLookups`. -/
def verifyDirectoryWatchesOfFailedLookups
    (expected actual : List (String × DirectoryWatchesOfFailedLookup)) : Bool :=
  verifyMap (some expected) (some actual) verifyDirWatchValue

/-- The source `verifyFileWatcherOfAffectingLocation`: the `resolutions` and
`files` fields are compared with `===`, the symlink sets with `verifySet`. -/
def verifyFileWatcherOfAffectingLocation
    (expected actual : Option FileWatcherOfAffectingLocation) : Bool :=
  ((expected.map (fun w => w.resolutions)) == (actual.map (fun w => w.resolutions))) &&
  ((expected.map (fun w => w.files)) == (actual.map (fun w => w.files))) &&
  verifySet (expected.bind (fun w => w.symlinks)) (actual.bind (fun w => w.symlinks))

/-- The source `verifyFileWatchesOfAffectingLocations`. -/
def verifyFileWatchesOfAffectingLocations
    (expected actual : List (String × FileWatcherOfAffectingLocation)) : Bool :=
  verifyMap (some expected) (some actual) verifyFileWatcherOfAffectingLocation

/-- Membership of an optional resolution id in an optional set of ids
(JS: `s?.has(x)` where `x` may itself be `undefined`). -/
def optHasId (s : Option (List Nat)) (x : Option Nat) : Bool :=
  match s, x with
  | some s, some x => s.contains x
  | _, _ => false

/-- The source `verifyResolutionSet`: identity differences between shadow and
live resolutions are bridged through the two cross-reference maps. -/
def verifyResolutionSet (expectedToResolution : List (EId × RId))
    (resolutionToExpected : List (RId × EId))
    (expected : Option (List EId)) (actual : Option (List RId)) : Bool :=
  ((expected.getD []).all fun e => optHasId actual (List.lookup e expectedToResolution)) &&
  ((actual.getD []).all fun r => optHasId expected (List.lookup r resolutionToExpected))

/-- The source `verifyMapOfResolutionSet`. -/
def verifyMapOfResolutionSet (expectedToResolution : List (EId × RId))
    (resolutionToExpected : List (RId × EId))
    (expected actual : List (TsPath × List Nat)) : Bool :=
  verifyMap (some expected) (some actual)
    (verifyResolutionSet expectedToResolution resolutionToExpected)

/-- Fetch the shadow resolution linked to a live resolution:
`resolutionToExpected.get(resolution)` followed by reading the shadow heap. -/
def expOf (resolutionToExpected : List (RId × EId))
    (expHeap : List (EId × ExpectedResolution)) (r : RId) : Option ExpectedResolution :=
  (List.lookup r resolutionToExpected).bind (fun e => List.lookup e expHeap)

/-- One iteration of the ref-count verification loop of
`verifyResolutionCache` (the `resolutionToRefs.forEach` at its lines 296-313). -/
def verifyRefCountOfResolution (res : RId → ResolutionData)
    (resolutionToExpected : List (RId × EId)) (expHeap : List (EId × ExpectedResolution))
    (entry : RId × List ResolutionInfo) : Bool :=
  ((res entry.1).refCount == some entry.2.length) &&
  (!(res entry.1).isInvalidated) &&
  (match expOf resolutionToExpected expHeap entry.1 with
   | some e => (e.refCount == (res entry.1).refCount) && verifySet e.files (res entry.1).files
   | none => false)

/-- The full ref-count verification pass. -/
def verifyRefCounts (res : RId → ResolutionData)
    (resolutionToExpected : List (RId × EId)) (expHeap : List (EId × ExpectedResolution))
    (resolutionToRefs : List (RId × List ResolutionInfo)) : Bool :=
  resolutionToRefs.all (verifyRefCountOfResolution res resolutionToExpected expHeap)

/-- The shadow resolution cache built by the verifier.  `heap` carries the
`ExpectedResolution` objects by id, `nextId` the next fresh id. -/
structure ExpectedState where
  resolvedModuleNames : List (TsPath × List ((String × TsResolutionMode) × EId))
  resolvedTypeReferenceDirectives : List (TsPath × List ((String × TsResolutionMode) × EId))
  resolvedLibraries : List (String × EId)
  heap : List (EId × ExpectedResolution)
  nextId : EId
  resolvedFileToResolution : List (TsPath × List EId)
  resolutionsWithFailedLookups : List EId
  resolutionsWithOnlyAffectingLocations : List EId
  directoryWatchesOfFailedLookups : List (String × DirectoryWatchesOfFailedLookup)
  fileWatchesOfAffectingLocations : List (String × FileWatcherOfAffectingLocation)
deriving DecidableEq, Repr

/-- The teardown assertion block of `verifyResolutionCache` (its lines
325-333): every shadow resolution must have a falsy refCount and an empty
file set, and every shadow aggregate must have size zero. -/
def verifyTeardown (resolutionToExpected : List (RId × EId)) (exp : ExpectedState) : Bool :=
  (resolutionToExpected.all fun p =>
    match List.lookup p.2 exp.heap with
    | some e => ((e.refCount.getD 0) == 0) && (((e.files.getD []).length) == 0)
    | none => false) &&
  (exp.resolvedFileToResolution.length == 0) &&
  (exp.resolutionsWithFailedLookups.length == 0) &&
  (exp.resolutionsWithOnlyAffectingLocations.length == 0) &&
  (exp.directoryWatchesOfFailedLookups.length == 0) &&
  (exp.fileWatchesOfAffectingLocations.length == 0)

/-- The source `verifyResolutionIsInCache`: a non-sentinel resolution reported
by the program must be the identical object stored in the live cache at
(name, mode); the sentinel must have no cache entry at all. -/
def verifyResolutionIsInCache (cache : Option ModeAwareCache) (resolution : RId)
    (name : String) (mode : TsResolutionMode) : Bool :=
  if resolution != emptyResolutionId then
    (cache.bind (fun c => maGet c name mode)) == some resolution
  else
    !((cache.map (fun c => maHas c name mode)).getD false)

/-- The program-to-cache verification pass of `verifyResolutionCache` (its
lines 258-291): modules are checked only when `userResolvedModuleNames` is
not set; type references and automatic type references are always checked. -/
def verifyProgramResolutionsInCache (userResolvedModuleNames : Bool)
    (cache : ResolutionCacheState) (prog : ProgramState) (inferredTypesPath : TsPath) : Bool :=
  (userResolvedModuleNames ||
    (flatResolutions prog.resolvedModules).all fun pr =>
      verifyResolutionIsInCache (List.lookup pr.1 cache.resolvedModuleNames)
        pr.2.2 pr.2.1.1 pr.2.1.2) &&
  ((flatResolutions prog.resolvedTypeReferenceDirectives).all fun pr =>
    verifyResolutionIsInCache (List.lookup pr.1 cache.resolvedTypeReferenceDirectives)
      pr.2.2 pr.2.1.1 pr.2.1.2) &&
  (prog.automaticTypeDirectiveResolutions.all fun kr =>
    verifyResolutionIsInCache (List.lookup inferredTypesPath cache.resolvedTypeReferenceDirectives)
      kr.2 kr.1.1 kr.1.2)

/-- `Program.getResolvedModule` for a containing file given by path: reads the
source file by path and then that file's module resolutions. -/
def getProgramModuleResolution (prog : ProgramState) (path : TsPath)
    (name : String) (mode : TsResolutionMode) : Option RId :=
  (getSourceFileByPath prog path).bind fun sf =>
    (List.lookup sf.path prog.resolvedModules).bind (fun c => maGet c name mode)

/-- The `getProgramResolutions` callback used for the type-reference cache:
the automatic type-directive containing file reads the program's automatic
resolutions, every other file its own type-reference resolutions. -/
def getProgramTypeRefResolution (prog : ProgramState) (inferredTypesPath : TsPath)
    (path : TsPath) (name : String) (mode : TsResolutionMode) : Option RId :=
  if path != inferredTypesPath then
    (getSourceFileByPath prog path).bind fun sf =>
      (List.lookup sf.path prog.resolvedTypeReferenceDirectives).bind
        (fun c => maGet c name mode)
  else
    maGet prog.automaticTypeDirectiveResolutions name mode

/-- The assertions of `collectResolutionToRefFromCache` for one cache entry
(file, per-file cache): the file must be in the program or be the automatic
type-directive containing file, and every cached resolution must be
identical to the one the program reports for the same key. -/
def collectEntryChecks (prog : ProgramState) (inferredTypesPath : TsPath)
    (getProgRes : String → TsResolutionMode → Option RId)
    (fileName : TsPath) (cache : ModeAwareCache) : Bool :=
  ((getSourceFileByPath prog fileName).isSome || (inferredTypesPath == fileName)) &&
  (cache.all fun kv => some kv.2 == getProgRes kv.1.1 kv.1.2)

/-- All `collectResolutionToRefFromCache` assertions over the live module and
type-reference caches. -/
def collectCacheChecks (cache : ResolutionCacheState) (prog : ProgramState)
    (inferredTypesPath : TsPath) : Bool :=
  (cache.resolvedModuleNames.all fun pc =>
    collectEntryChecks prog inferredTypesPath (getProgramModuleResolution prog pc.1)
      pc.1 pc.2) &&
  (cache.resolvedTypeReferenceDirectives.all fun pc =>
    collectEntryChecks prog inferredTypesPath
      (getProgramTypeRefResolution prog inferredTypesPath pc.1) pc.1 pc.2)

/-- A document registry bucket entry: either one shared entry (its script kind
and languageServiceRefCount) or a per-script-kind map of ref counts. -/
inductive DocumentRegistryEntryModel where
  | single (scriptKind : Nat) (languageServiceRefCount : Nat)
  | perKind (entries : List (Nat × Nat))
deriving DecidableEq, Repr

/-- The document registry bucket map (`documentRegistry.getBuckets()`). -/
abbrev DocumentRegistryBuckets := List (String × List (TsPath × DocumentRegistryEntryModel))

/-- The expected per-bucket, per-path, per-script-kind tally. -/
abbrev DocumentRegistryExpectedStats := List (String × List (TsPath × List (Nat × Nat)))

/-- The per-entry assertions of `verifyDocumentRegistryStats`. -/
def verifyDocumentRegistryEntry (expected : Option (List (Nat × Nat))) :
    DocumentRegistryEntryModel → Bool
  | .single kind rc =>
    match expected with
    | none => false
    | some l => (l.length == 1) && (List.lookup kind l).isSome && (List.lookup kind l == some rc)
  | .perKind entries =>
    (entries.all fun kv => some kv.2 == expected.bind (fun l => List.lookup kv.1 l)) &&
    ((expected.getD []).all fun kv => (List.lookup kv.1 entries).isSome)

/-- The source `verifyDocumentRegistryStats`: every registry bucket entry must
agree with the tally, every tallied path must exist in its registry bucket,
and every tallied bucket key must exist in the registry. -/
def verifyDocumentRegistryStats (buckets : DocumentRegistryBuckets)
    (stats : DocumentRegistryExpectedStats) : Bool :=
  (buckets.all fun bk =>
    (bk.2.all fun pe =>
      verifyDocumentRegistryEntry ((List.lookup bk.1 stats).bind (fun l => List.lookup pe.1 l)) pe.2) &&
    (((List.lookup bk.1 stats).getD []).all fun pv => (List.lookup pv.1 bk.2).isSome)) &&
  (stats.all fun sv => (List.lookup sv.1 buckets).isSome)

/-- Render an optional number the way a JS template literal does. -/
def optNatStr : Option Nat → String
  | none => "undefined"
  | some n => toString n

/-- Render an optional string the way a JS template literal does. -/
def optStrStr : Option String → String
  | none => "undefined"
  | some s => s

/-- Modelled from the spec: `ts.getNameOfCompilerOptionValue` (not part of the
sources) renders a module-kind enum value as its stable option name; only its
functional determinism matters to the serializer. -/
def getNameOfCompilerOptionValue (m : Nat) : String := toString m

/-- Sort order on source files; modelled from the spec:
`ts.comparePathsCaseSensitive` (not part of the sources) is a deterministic
case-sensitive comparison of the `path` fields. -/
def fileLeByPath (f g : SourceFileData) : Prop := f.path ≤ g.path

instance : DecidableRel fileLeByPath := fun f g => inferInstanceAs (Decidable (f.path ≤ g.path))

instance : IsTotal SourceFileData fileLeByPath := ⟨fun f g => le_total f.path g.path⟩

instance : IsTrans SourceFileData fileLeByPath := ⟨fun _ _ _ h h' => le_trans h h'⟩

/-- The stable path sort applied by `getProgramStructure`. -/
def sortByPath (l : List SourceFileData) : List SourceFileData :=
  List.insertionSort fileLeByPath l

/-- Strip one carriage return before a split newline. -/
def stripCR (l : String) : String := if l.endsWith "\r" then l.dropRight 1 else l

/-- JS `text.split(/\r?\n/g)`. -/
def splitLines (text : String) : List String :=
  let parts := text.splitOn "\n"
  (parts.dropLast.map stripCR) ++ parts.drop (parts.length - 1)

/-- The text block of one file in `getProgramStructure`: each nonempty line is
indented by four spaces, empty lines stay empty. -/
def indentText (text : String) : String :=
  String.intercalate "\n" ((splitLines text).map fun l => if l != "" then "    " ++ l else "")

/-- The source `getResolutionCacheDetails`: a cache-type header line (only
when at least one entry exists) followed by one line per resolution. -/
def resolutionCacheDetails (cacheType : String)
    (entries : List ((String × TsResolutionMode) × RId))
    (getResolvedFileName : RId → Option String) (indent : String) : List String :=
  if entries.isEmpty then []
  else
    (indent ++ cacheType ++ ":") ::
    entries.map fun kv =>
      indent ++ "  " ++ kv.1.1 ++ ": " ++
        (if (kv.1.2.getD 0) != 0 then
          getNameOfCompilerOptionValue (kv.1.2.getD 0) ++ ":"
        else "") ++
        optStrStr (getResolvedFileName kv.2)

/-- The source `getLibResolutionCacheDetails`. -/
def libResolutionCacheDetails (res : RId → ResolutionData)
    (cache : Option (List (String × LibResolution))) (indent : String) : List String :=
  match cache with
  | none => []
  | some entries =>
    if entries.isEmpty then []
    else
      (indent ++ "Libs:") ::
      entries.map fun kv =>
        indent ++ "  " ++ kv.1 ++ ": Actual: " ++ kv.2.actual ++
          " Resolution: " ++ optStrStr (res kv.2.resolution).resolvedModule

/-- The serialization of one source file in `getProgramStructure`. -/
def fileStructure (res : RId → ResolutionData) (p : ProgramState) (f : SourceFileData) :
    List String :=
  ("  File: " ++ f.fileName ++ " Path: " ++ f.path ++ " ResolvedPath: " ++ f.resolvedPath ++
    " impliedNodeFormat: " ++ optNatStr f.impliedNodeFormat) ::
  indentText f.text ::
  (resolutionCacheDetails "Modules" ((List.lookup f.path p.resolvedModules).getD [])
    (fun r => (res r).resolvedModule) "    " ++
   resolutionCacheDetails "TypeRefs" ((List.lookup f.path p.resolvedTypeReferenceDirectives).getD [])
    (fun r => (res r).resolvedTypeReferenceDirective) "    ")

/-- The source `getProgramStructure`: serialize a program (or undefined) into
a deterministic multi-line string, files sorted by path. -/
def getProgramStructure (res : RId → ResolutionData) (program : Option ProgramState) : String :=
  let fileParts :=
    match program with
    | none => []
    | some p => (sortByPath p.sourceFiles).flatMap (fileStructure res p)
  let autoPart :=
    match program with
    | none => []
    | some p =>
      resolutionCacheDetails "AutoTypeRefs" p.automaticTypeDirectiveResolutions
        (fun r => (res r).resolvedTypeReferenceDirective) "  "
  let libPart :=
    match program with
    | none => []
    | some p => libResolutionCacheDetails res p.resolvedLibReferences "    "
  String.intercalate "\n" (fileParts ++ autoPart ++ libPart)

/-- The source `verifyProgramStructure`: byte-for-byte equality of the two
serializations. -/
def verifyProgramStructure (res : RId → ResolutionData)
    (expectedProgram actualProgram : ProgramState) : Bool :=
  getProgramStructure res (some actualProgram) == getProgramStructure res (some expectedProgram)

/-- Map.set on an association list. -/
def setAssoc {α β : Type} [BEq α] : List (α × β) → α → β → List (α × β)
  | [], k, v => [(k, v)]
  | kv :: rest, k, v => if kv.1 == k then (k, v) :: rest else kv :: setAssoc rest k v

/-- Map.delete on an association list. -/
def delAssoc {α β : Type} [BEq α] (l : List (α × β)) (k : α) : List (α × β) :=
  l.filter (fun kv => !(kv.1 == k))

/-- Set.add on a list-modelled set. -/
def insertUnique (l : List String) (x : String) : List String :=
  if l.contains x then l else l ++ [x]

/-- Add an id to the id set stored under a key, creating the set on demand. -/
def addToIdSetMap (m : List (TsPath × List Nat)) (k : TsPath) (x : Nat) : List (TsPath × List Nat) :=
  match List.lookup k m with
  | some s => setAssoc m k (if s.contains x then s else s ++ [x])
  | none => m ++ [(k, [x])]

/-- Remove an id from the id set stored under a key, deleting the key once the
set becomes empty. -/
def removeFromIdSetMap (m : List (TsPath × List Nat)) (k : TsPath) (x : Nat) :
    List (TsPath × List Nat) :=
  match List.lookup k m with
  | some s =>
    let s := s.erase x
    if s.isEmpty then delAssoc m k else setAssoc m k s
  | none => m

/-- Create or ref a shadow directory watch for one failed lookup location. -/
def addDirWatch (watches : List (String × DirectoryWatchesOfFailedLookup)) (loc : String) :
    List (String × DirectoryWatchesOfFailedLookup) :=
  match List.lookup loc watches with
  | some w => setAssoc watches loc { w with refCount := w.refCount + 1 }
  | none => watches ++ [(loc, ⟨1, none⟩)]

/-- Deref a shadow directory watch, closing it at ref count zero. -/
def releaseDirWatch (watches : List (String × DirectoryWatchesOfFailedLookup)) (loc : String) :
    List (String × DirectoryWatchesOfFailedLookup) :=
  match List.lookup loc watches with
  | some w => if w.refCount ≤ 1 then delAssoc watches loc
              else setAssoc watches loc { w with refCount := w.refCount - 1 }
  | none => watches

/-- Create or ref a shadow file watch for one affecting location. -/
def addFileWatch (watches : List (String × FileWatcherOfAffectingLocation)) (loc : String) :
    List (String × FileWatcherOfAffectingLocation) :=
  match List.lookup loc watches with
  | some w => setAssoc watches loc { w with resolutions := w.resolutions + 1 }
  | none => watches ++ [(loc, ⟨1, 0, none⟩)]

/-- Deref a shadow file watch, closing it once no resolution or file refs it. -/
def releaseFileWatch (watches : List (String × FileWatcherOfAffectingLocation)) (loc : String) :
    List (String × FileWatcherOfAffectingLocation) :=
  match List.lookup loc watches with
  | some w =>
    if w.resolutions ≤ 1 && w.files == 0 then delAssoc watches loc
    else setAssoc watches loc { w with resolutions := w.resolutions - 1 }
  | none => watches

/-- The empty shadow cache created by `createResolutionCache` +
`startCachingPerDirectoryResolution`. -/
def emptyExpectedState : ExpectedState := ⟨[], [], [], [], 0, [], [], [], [], []⟩

/-- Modelled from the spec: the shadow cache's
`watchFailedLookupLocationsOfExternalModuleResolutions` (the production
resolution-cache code is not among the sources).  Per the spec it increments
the shadow ref count, records the referencing file, and on the first
reference registers the resolution in the aggregate indexes: the reverse
resolved-file index, the failed-lookup or affecting-location-only set, and
ref-counted directory/file watches for its failed lookup and affecting
locations. -/
def watchFailedLookupLocationsOfExternalModuleResolutions (exp : ExpectedState)
    (eid : EId) (filePath : TsPath) : ExpectedState :=
  match List.lookup eid exp.heap with
  | none => exp
  | some e =>
    match e.refCount with
    | some rc =>
      let e2 := { e with refCount := some (rc + 1),
                         files := some (insertUnique (e.files.getD []) filePath) }
      { exp with heap := setAssoc exp.heap eid e2 }
    | none =>
      let e2 := { e with refCount := some 1,
                         files := some (insertUnique (e.files.getD []) filePath) }
      let exp := { exp with heap := setAssoc exp.heap eid e2 }
      let exp :=
        match e.resolvedModule <|> e.resolvedTypeReferenceDirective with
        | some rf =>
          { exp with resolvedFileToResolution := addToIdSetMap exp.resolvedFileToResolution rf eid }
        | none => exp
      if e.failedLookupLocations.isEmpty then
        if e.affectingLocations.isEmpty then exp
        else
          { exp with
            resolutionsWithOnlyAffectingLocations :=
              exp.resolutionsWithOnlyAffectingLocations ++ [eid],
            fileWatchesOfAffectingLocations :=
              e.affectingLocations.foldl addFileWatch exp.fileWatchesOfAffectingLocations }
      else
        { exp with
          resolutionsWithFailedLookups := exp.resolutionsWithFailedLookups ++ [eid],
          directoryWatchesOfFailedLookups :=
            e.failedLookupLocations.foldl addDirWatch exp.directoryWatchesOfFailedLookups,
          fileWatchesOfAffectingLocations :=
            e.affectingLocations.foldl addFileWatch exp.fileWatchesOfAffectingLocations }

/-- Modelled from the spec: releasing one (resolution, file) reference in the
shadow cache; at ref count zero the resolution is pruned from every aggregate
index and its watches are deref'd. -/
def stopWatchingResolution (exp : ExpectedState) (eid : EId) (filePath : TsPath) : ExpectedState :=
  match List.lookup eid exp.heap with
  | none => exp
  | some e =>
    let rc := (e.refCount.getD 1) - 1
    let e2 := { e with refCount := some rc, files := some ((e.files.getD []).erase filePath) }
    let exp := { exp with heap := setAssoc exp.heap eid e2 }
    if rc == 0 then
      let exp :=
        match e.resolvedModule <|> e.resolvedTypeReferenceDirective with
        | some rf =>
          { exp with resolvedFileToResolution := removeFromIdSetMap exp.resolvedFileToResolution rf eid }
        | none => exp
      let exp :=
        { exp with
          resolutionsWithFailedLookups := exp.resolutionsWithFailedLookups.erase eid,
          resolutionsWithOnlyAffectingLocations :=
            exp.resolutionsWithOnlyAffectingLocations.erase eid,
          directoryWatchesOfFailedLookups :=
            e.failedLookupLocations.foldl releaseDirWatch exp.directoryWatchesOfFailedLookups,
          fileWatchesOfAffectingLocations :=
            e.affectingLocations.foldl releaseFileWatch exp.fileWatchesOfAffectingLocations }
      exp
    else exp

/-- Modelled from the spec: the shadow cache's `removeResolutionsOfFile`:
release every resolution referenced from the file's module and
type-reference caches and drop the per-file caches. -/
def removeResolutionsOfFile (exp : ExpectedState) (path : TsPath) : ExpectedState :=
  let modCache := (List.lookup path exp.resolvedModuleNames).getD []
  let exp := modCache.foldl (fun ex kv => stopWatchingResolution ex kv.2 path) exp
  let exp := { exp with resolvedModuleNames := delAssoc exp.resolvedModuleNames path }
  let trCache := (List.lookup path exp.resolvedTypeReferenceDirectives).getD []
  let exp := trCache.foldl (fun ex kv => stopWatchingResolution ex kv.2 path) exp
  { exp with resolvedTypeReferenceDirectives := delAssoc exp.resolvedTypeReferenceDirectives path }

/-- Modelled from the spec: `finishCachingPerDirectoryResolution` closes the
per-directory recording session; watch bookkeeping is applied eagerly in this
model, so closing the session adds nothing to the modelled aggregates. -/
def finishCachingPerDirectoryResolution (exp : ExpectedState) : ExpectedState := exp

/-- Modelled from the spec: `ts.getLibraryNameFromLibFileName` (not among the
sources) derives the scoped package name of a lib file. -/
def getLibraryNameFromLibFileName (libFileName : String) : String :=
  "@typescript/lib-" ++ libFileName

/-- The verifier-local collection state: the shadow cache plus the three
cross-reference maps built during traversal. -/
structure VerifierState where
  exp : ExpectedState
  resolutionToRefs : List (RId × List ResolutionInfo)
  resolutionToExpected : List (RId × EId)
  expectedToResolution : List (EId × RId)
deriving DecidableEq, Repr

/-- The source `collectResolution`: group lookups resolving to the same live
resolution under one shared shadow resolution, record the reference, and
replay the shadow watch protocol for the referencing file. -/
def collectResolution (res : RId → ResolutionData) (st : VerifierState)
    (cacheType : String) (fileName : TsPath) (resolved : RId)
    (name : String) (mode : TsResolutionMode) : EId × VerifierState :=
  match List.lookup resolved st.resolutionToRefs with
  | some infos =>
    let eid := (List.lookup resolved st.resolutionToExpected).getD 0
    let st := { st with
      resolutionToRefs :=
        setAssoc st.resolutionToRefs resolved (infos ++ [⟨cacheType, fileName, name, mode⟩]),
      exp := watchFailedLookupLocationsOfExternalModuleResolutions st.exp eid fileName }
    (eid, st)
  | none =>
    let d := res resolved
    let eid := st.exp.nextId
    let e : ExpectedResolution :=
      ⟨d.resolvedModule, d.resolvedTypeReferenceDirective, d.failedLookupLocations,
       d.affectingLocations, d.node10Result, none, none⟩
    let exp := { st.exp with heap := st.exp.heap ++ [(eid, e)], nextId := eid + 1 }
    let st := { st with
      exp := watchFailedLookupLocationsOfExternalModuleResolutions exp eid fileName,
      resolutionToRefs := st.resolutionToRefs ++ [(resolved, [⟨cacheType, fileName, name, mode⟩])],
      resolutionToExpected := st.resolutionToExpected ++ [(resolved, eid)],
      expectedToResolution := st.expectedToResolution ++ [(eid, resolved)] }
    (eid, st)

/-- The source `collectResolutionToRefFromCache` for one (file, cache) entry:
runs the assertions of `collectEntryChecks` while building the shadow
per-file cache and collecting references. -/
def collectFromCache (res : RId → ResolutionData) (prog : ProgramState)
    (inferredTypesPath : TsPath) (cacheType : String) (isModules : Bool)
    (getProgRes : String → TsResolutionMode → Option RId)
    (fileName : TsPath) (cache : ModeAwareCache) (st : VerifierState) : VerifierState × Bool :=
  let ok0 := (getSourceFileByPath prog fileName).isSome || (inferredTypesPath == fileName)
  let step := fun (acc : VerifierState × List ((String × TsResolutionMode) × EId) × Bool)
      (kv : (String × TsResolutionMode) × RId) =>
    let (eid, st) := collectResolution res acc.1 cacheType fileName kv.2 kv.1.1 kv.1.2
    (st, acc.2.1 ++ [(kv.1, eid)], acc.2.2 && (some kv.2 == getProgRes kv.1.1 kv.1.2))
  let out := cache.foldl step (st, [], ok0)
  let st := out.1
  let expectedCache := out.2.1
  let st :=
    if expectedCache.isEmpty then st
    else if isModules then
      { st with exp := { st.exp with
          resolvedModuleNames := setAssoc st.exp.resolvedModuleNames fileName expectedCache } }
    else
      { st with exp := { st.exp with
          resolvedTypeReferenceDirectives :=
            setAssoc st.exp.resolvedTypeReferenceDirectives fileName expectedCache } }
  (st, out.2.2)

set_option maxHeartbeats 1000000 in
/-- The whole `verifyResolutionCache`, composed from the collection phase, the
program/cache agreement passes, the structural comparisons and the teardown
pass.  The live cache and program are read-only inputs threaded through to
the output; the shadow cache is built and torn down internally. -/
def verifyResolutionCacheModel (res : RId → ResolutionData) (cache : ResolutionCacheState)
    (prog : ProgramState) (inferredTypesPath : TsPath)
    (inferredLibPath : String → TsPath) (userResolvedModuleNames : Bool) :
    Bool × ResolutionCacheState × ProgramState :=
  let st0 : VerifierState := ⟨emptyExpectedState, [], [], []⟩
  let step := fun (isModules : Bool) (getRes : TsPath → String → TsResolutionMode → Option RId)
      (cacheType : String) (acc : VerifierState × Bool) (pc : TsPath × ModeAwareCache) =>
    let out := collectFromCache res prog inferredTypesPath cacheType isModules
      (getRes pc.1) pc.1 pc.2 acc.1
    (out.1, acc.2 && out.2)
  let acc1 := cache.resolvedModuleNames.foldl
    (step true (getProgramModuleResolution prog) "Modules") (st0, true)
  let acc2 := cache.resolvedTypeReferenceDirectives.foldl
    (step false (getProgramTypeRefResolution prog inferredTypesPath) "TypeRefs") acc1
  let st3 := cache.resolvedLibraries.foldl (fun st kv =>
    let out := collectResolution res st "Libs" (inferredLibPath kv.1) kv.2
      (getLibraryNameFromLibFileName kv.1) none
    { out.2 with exp := { out.2.exp with
        resolvedLibraries := setAssoc out.2.exp.resolvedLibraries kv.1 out.1 } }) acc2.1
  let okCollect := acc2.2
  let okProgram := verifyProgramResolutionsInCache userResolvedModuleNames cache prog inferredTypesPath
  let st4 := { st3 with exp := finishCachingPerDirectoryResolution st3.exp }
  let okRefCounts := verifyRefCounts res st4.resolutionToExpected st4.exp.heap st4.resolutionToRefs
  let okFileToResolution := verifyMapOfResolutionSet st4.expectedToResolution st4.resolutionToExpected
    st4.exp.resolvedFileToResolution cache.resolvedFileToResolution
  let okFailed := verifyResolutionSet st4.expectedToResolution st4.resolutionToExpected
    (some st4.exp.resolutionsWithFailedLookups) (some cache.resolutionsWithFailedLookups)
  let okAffecting := verifyResolutionSet st4.expectedToResolution st4.resolutionToExpected
    (some st4.exp.resolutionsWithOnlyAffectingLocations)
    (some cache.resolutionsWithOnlyAffectingLocations)
  let okDirWatches := verifyDirectoryWatchesOfFailedLookups
    st4.exp.directoryWatchesOfFailedLookups cache.directoryWatchesOfFailedLookups
  let okFileWatches := verifyFileWatchesOfAffectingLocations
    st4.exp.fileWatchesOfAffectingLocations cache.fileWatchesOfAffectingLocations
  let exp1 := cache.resolvedModuleNames.foldl (fun ex pc => removeResolutionsOfFile ex pc.1) st4.exp
  let exp2 := cache.resolvedTypeReferenceDirectives.foldl
    (fun ex pc => removeResolutionsOfFile ex pc.1) exp1
  let exp3 := finishCachingPerDirectoryResolution exp2
  let okTeardown := verifyTeardown st4.resolutionToExpected exp3
  (okCollect && okProgram && okRefCounts && okFileToResolution && okFailed && okAffecting &&
    okDirWatches && okFileWatches && okTeardown, cache, prog)

/-- Modelled from the spec: the claim's reading of a file watch, in which the
associated `resolutions` and `files` are sets rather than reference counts.
Used only to compare the claim's description against the code's comparison. -/
structure FileWatcherOfAffectingLocationSpec where
  resolutions : List EId
  files : List TsPath
  symlinks : Option (List String)
deriving DecidableEq, Repr

/-- Interpret a set-valued watcher as the code's count-valued watcher. -/
def toCodeWatcher (w : FileWatcherOfAffectingLocationSpec) : FileWatcherOfAffectingLocation :=
  ⟨w.resolutions.length, w.files.length, w.symlinks⟩

/-- Interpret a map of set-valued watchers as the code's watcher map. -/
def toCodeWatchMap (l : List (String × FileWatcherOfAffectingLocationSpec)) :
    List (String × FileWatcherOfAffectingLocation) :=
  l.map (fun kv => (kv.1, toCodeWatcher kv.2))

/-- Modelled from the spec: the per-watch comparison the claim describes for
file watches: resolution sets compared through the cross-reference identity
maps, file sets for identity, symlink sets by pure value equality. -/
def verifyFileWatcherPerSpecClaim (expectedToResolution : List (EId × RId))
    (resolutionToExpected : List (RId × EId))
    (expected actual : Option FileWatcherOfAffectingLocationSpec) : Bool :=
  verifyResolutionSet expectedToResolution resolutionToExpected
    (expected.map (fun w => w.resolutions)) (actual.map (fun w => w.resolutions)) &&
  ((expected.map (fun w => w.files)) == (actual.map (fun w => w.files))) &&
  verifySet (expected.bind (fun w => w.symlinks)) (actual.bind (fun w => w.symlinks))

/-- Modelled from the spec: the two-directional file-watch map comparison the
claim describes. -/
def verifyFileWatchesPerSpecClaim (expectedToResolution : List (EId × RId))
    (resolutionToExpected : List (RId × EId))
    (expected actual : List (String × FileWatcherOfAffectingLocationSpec)) : Bool :=
  verifyMap (some expected) (some actual)
    (verifyFileWatcherPerSpecClaim expectedToResolution resolutionToExpected)

/-- The condition `verifyResolutionIsInCache` enforces, stated in the claim's
language: a non-sentinel program resolution is held, identically, by the live
cache at its (name, mode) key; the sentinel has no cache entry at all. -/
def ProgramResolutionInCache (cache : Option ModeAwareCache) (r : RId)
    (name : String) (mode : TsResolutionMode) : Prop :=
  if r = emptyResolutionId then
    ((cache.map (fun c => maHas c name mode)).getD false) = false
  else
    (cache.bind (fun c => maGet c name mode)) = some r

instance (cache : Option ModeAwareCache) (r : RId) (name : String) (mode : TsResolutionMode) :
    Decidable (ProgramResolutionInCache cache r name mode) := by
  unfold ProgramResolutionInCache; infer_instance

/-- The per-entry condition of the document-registry claim: a single shared
entry demands a tally of exactly its script kind with its ref count; a
per-kind map demands kind-by-kind agreement in both directions. -/
def RegistryEntryAgrees (expected : Option (List (Nat × Nat))) :
    DocumentRegistryEntryModel → Prop
  | .single kind rc => expected = some [(kind, rc)]
  | .perKind entries =>
    (∀ kv ∈ entries, expected.bind (fun l => List.lookup kv.1 l) = some kv.2) ∧
    (∀ kv ∈ expected.getD [], (List.lookup kv.1 entries).isSome = true)

/-- A resolution heap with inert data, for concrete examples. -/
def exRes : RId → ResolutionData := fun _ => ⟨none, none, [], [], none, false, none, none⟩

/-- The empty program, for concrete examples. -/
def exProg : ProgramState := ⟨[], [], [], [], none⟩

/-- The empty live resolution cache, for concrete examples. -/
def exCache : ResolutionCacheState := ⟨[], [], [], [], [], [], [], []⟩

/-- A one-file program whose file resolves module m to resolution 5. -/
def cxProg3 : ProgramState :=
  ⟨[⟨"a.ts", "/a.ts", "/a.ts", none, ""⟩], [("/a.ts", [(("m", none), 5)])], [], [], none⟩

/-- A live heap where resolution 0 (the sentinel) carries refCount 1 from one
referencing file, as a buggy cache materializing the sentinel would. -/
def res4 : RId → ResolutionData :=
  fun _ => ⟨none, none, [], [], none, false, some 1, some ["/a.ts"]⟩

/-- A live cache that materialized the sentinel as a module cache entry. -/
def cache4 : ResolutionCacheState :=
  ⟨[("/a.ts", [(("m", none), 0)])], [], [], [], [], [], [], []⟩

/-- A one-file program reporting the sentinel resolution for module name m. -/
def prog4 : ProgramState :=
  ⟨[⟨"a.ts", "/a.ts", "/a.ts", none, ""⟩], [("/a.ts", [(("m", none), 0)])], [], [], none⟩

-- ===================== Theorems =====================

theorem optHas_eq_true {s : Option (List String)} {x : String} :
    optHas s x = true ↔ x ∈ s.getD [] := by
  cases s <;> simp [optHas]

theorem verifySet_eq_true {e a : Option (List String)} :
    verifySet e a = true ↔
      ((∀ x ∈ e.getD [], x ∈ a.getD []) ∧ (∀ x ∈ a.getD [], x ∈ e.getD [])) := by
  simp [verifySet, List.all_eq_true, optHas_eq_true]

theorem verifyMap_eq_true {α β : Type} {e : List (String × α)} {a : List (String × β)}
    {f : Option α → Option β → Bool} :
    verifyMap (some e) (some a) f = true ↔
      ((∀ kv ∈ e, f (some kv.2) (List.lookup kv.1 a) = true) ∧
       (∀ kv ∈ a, f (List.lookup kv.1 e) (some kv.2) = true)) := by
  simp [verifyMap, optLookup, List.all_eq_true]

theorem verifyDirWatchValue_some_left {w : DirectoryWatchesOfFailedLookup}
    {o : Option DirectoryWatchesOfFailedLookup} :
    verifyDirWatchValue (some w) o = true ↔
      ∃ w', o = some w' ∧ w.refCount = w'.refCount ∧ w.refCount ≠ 0 ∧
        w.nonRecursive = w'.nonRecursive := by
  cases o with
  | none => simp [verifyDirWatchValue]
  | some w' => simp [verifyDirWatchValue, and_assoc]

theorem verifyDirWatchValue_some_right {w : DirectoryWatchesOfFailedLookup}
    {o : Option DirectoryWatchesOfFailedLookup} :
    verifyDirWatchValue o (some w) = true ↔
      ∃ w', o = some w' ∧ w'.refCount = w.refCount ∧ w'.refCount ≠ 0 ∧
        w'.nonRecursive = w.nonRecursive := by
  cases o with
  | none => simp [verifyDirWatchValue]
  | some w' => simp [verifyDirWatchValue, and_assoc]

/-- Claim C5: for every watched directory path the live and shadow directory
watches agree on refCount and on the nonRecursive flag, the comparison runs
in both directions, and every shadow directory watch has a non-zero
refCount; the check succeeds exactly under these conditions. -/
theorem directoryWatch_agreement_iff (e a : List (String × DirectoryWatchesOfFailedLookup)) :
    verifyDirectoryWatchesOfFailedLookups e a = true ↔
      ((∀ kv ∈ e, ∃ w, List.lookup kv.1 a = some w ∧
          kv.2.refCount = w.refCount ∧ kv.2.refCount ≠ 0 ∧ kv.2.nonRecursive = w.nonRecursive) ∧
       (∀ kv ∈ a, ∃ w, List.lookup kv.1 e = some w ∧
          w.refCount = kv.2.refCount ∧ w.refCount ≠ 0 ∧ w.nonRecursive = kv.2.nonRecursive)) := by
  rw [verifyDirectoryWatchesOfFailedLookups, verifyMap_eq_true]
  constructor
  · rintro ⟨h1, h2⟩
    exact ⟨fun kv hkv => verifyDirWatchValue_some_left.mp (h1 kv hkv),
           fun kv hkv => verifyDirWatchValue_some_right.mp (h2 kv hkv)⟩
  · rintro ⟨h1, h2⟩
    exact ⟨fun kv hkv => verifyDirWatchValue_some_left.mpr (h1 kv hkv),
           fun kv hkv => verifyDirWatchValue_some_right.mpr (h2 kv hkv)⟩

theorem verifyRefCountOfResolution_iff {res : RId → ResolutionData}
    {r2e : List (RId × EId)} {expHeap : List (EId × ExpectedResolution)}
    {p : RId × List ResolutionInfo} :
    verifyRefCountOfResolution res r2e expHeap p = true ↔
      ∃ e, expOf r2e expHeap p.1 = some e ∧
        (res p.1).refCount = some p.2.length ∧
        (res p.1).isInvalidated = false ∧
        e.refCount = (res p.1).refCount ∧
        (∀ x ∈ e.files.getD [], x ∈ (res p.1).files.getD []) ∧
        (∀ x ∈ (res p.1).files.getD [], x ∈ e.files.getD []) := by
  cases h : expOf r2e expHeap p.1 with
  | none => simp [verifyRefCountOfResolution, h]
  | some e =>
    simp only [verifyRefCountOfResolution, h, Bool.and_eq_true, beq_iff_eq,
      Bool.not_eq_true', verifySet_eq_true, Option.some.injEq]
    constructor
    · rintro ⟨⟨h1, h2⟩, h3, h4, h5⟩
      exact ⟨e, rfl, h1, h2, h3, h4, h5⟩
    · rintro ⟨e', he', h1, h2, h3, h4, h5⟩
      cases he'
      exact ⟨⟨h1, h2⟩, h3, h4, h5⟩

/-- Claim C1: the ref-count verification pass succeeds exactly when, for every
resolution collected from the live cache, its refCount equals the number of
(cacheType, file, name, mode) references collected for it, it is not marked
invalidated, the linked shadow ExpectedResolution carries the same refCount,
and the live and shadow referencing-file sets agree by two-way containment. -/
theorem refCount_conservation_iff (res : RId → ResolutionData)
    (r2e : List (RId × EId)) (expHeap : List (EId × ExpectedResolution))
    (refs : List (RId × List ResolutionInfo)) :
    verifyRefCounts res r2e expHeap refs = true ↔
      ∀ p ∈ refs, ∃ e, expOf r2e expHeap p.1 = some e ∧
        (res p.1).refCount = some p.2.length ∧
        (res p.1).isInvalidated = false ∧
        e.refCount = (res p.1).refCount ∧
        (∀ x ∈ e.files.getD [], x ∈ (res p.1).files.getD []) ∧
        (∀ x ∈ (res p.1).files.getD [], x ∈ e.files.getD []) := by
  rw [verifyRefCounts, List.all_eq_true]
  exact forall₂_congr (fun p _ => verifyRefCountOfResolution_iff)

/-- Claim C2: the teardown assertion block run after every file has been
removed from the shadow cache succeeds exactly when every shadow
ExpectedResolution has a zero (or unset) refCount and an empty file set and
the five shadow aggregates (resolvedFileToResolution,
resolutionsWithFailedLookups, resolutionsWithOnlyAffectingLocations,
directoryWatchesOfFailedLookups, fileWatchesOfAffectingLocations) all have
size zero. -/
theorem teardown_iff (r2e : List (RId × EId)) (exp : ExpectedState) :
    verifyTeardown r2e exp = true ↔
      ((∀ p ∈ r2e, ∃ e, List.lookup p.2 exp.heap = some e ∧
          e.refCount.getD 0 = 0 ∧ e.files.getD [] = []) ∧
       exp.resolvedFileToResolution = [] ∧
       exp.resolutionsWithFailedLookups = [] ∧
       exp.resolutionsWithOnlyAffectingLocations = [] ∧
       exp.directoryWatchesOfFailedLookups = [] ∧
       exp.fileWatchesOfAffectingLocations = []) := by
  simp only [verifyTeardown, Bool.and_eq_true, List.all_eq_true, beq_iff_eq,
    List.length_eq_zero, and_assoc]
  refine and_congr_left' (forall₂_congr (fun p _ => ?_))
  cases h : List.lookup p.2 exp.heap with
  | none => simp
  | some e =>
    simp only [Bool.and_eq_true, beq_iff_eq, Option.some.injEq, List.length_eq_zero]
    constructor
    · rintro ⟨h1, h2⟩; exact ⟨e, rfl, h1, h2⟩
    · rintro ⟨e', he', h1, h2⟩; cases he'; exact ⟨h1, h2⟩

theorem verifyFileWatcher_some_left {w : FileWatcherOfAffectingLocation}
    {o : Option FileWatcherOfAffectingLocation} :
    verifyFileWatcherOfAffectingLocation (some w) o = true ↔
      ∃ w', o = some w' ∧ w.resolutions = w'.resolutions ∧ w.files = w'.files ∧
        (∀ x ∈ w.symlinks.getD [], x ∈ w'.symlinks.getD []) ∧
        (∀ x ∈ w'.symlinks.getD [], x ∈ w.symlinks.getD []) := by
  cases o with
  | none => simp [verifyFileWatcherOfAffectingLocation]
  | some w' => simp [verifyFileWatcherOfAffectingLocation, verifySet_eq_true, and_assoc]

theorem verifyFileWatcher_some_right {w : FileWatcherOfAffectingLocation}
    {o : Option FileWatcherOfAffectingLocation} :
    verifyFileWatcherOfAffectingLocation o (some w) = true ↔
      ∃ w', o = some w' ∧ w'.resolutions = w.resolutions ∧ w'.files = w.files ∧
        (∀ x ∈ w'.symlinks.getD [], x ∈ w.symlinks.getD []) ∧
        (∀ x ∈ w.symlinks.getD [], x ∈ w'.symlinks.getD []) := by
  cases o with
  | none => simp [verifyFileWatcherOfAffectingLocation]
  | some w' => simp [verifyFileWatcherOfAffectingLocation, verifySet_eq_true, and_assoc]

/-- Claim C6 (amended): the file-watch comparison runs in both directions and
succeeds exactly when, for every watched path, the live and shadow watches
agree on the `resolutions` reference count, on the `files` reference count,
and on the symlink set by two-way value containment.  (The claim's reading,
in which `resolutions`/`files` are sets compared through the cross-reference
maps, is refuted by the counterexample below.) -/
theorem fileWatch_agreement_amended (e a : List (String × FileWatcherOfAffectingLocation)) :
    verifyFileWatchesOfAffectingLocations e a = true ↔
      ((∀ kv ∈ e, ∃ w, List.lookup kv.1 a = some w ∧
          kv.2.resolutions = w.resolutions ∧ kv.2.files = w.files ∧
          (∀ x ∈ kv.2.symlinks.getD [], x ∈ w.symlinks.getD []) ∧
          (∀ x ∈ w.symlinks.getD [], x ∈ kv.2.symlinks.getD [])) ∧
       (∀ kv ∈ a, ∃ w, List.lookup kv.1 e = some w ∧
          w.resolutions = kv.2.resolutions ∧ w.files = kv.2.files ∧
          (∀ x ∈ w.symlinks.getD [], x ∈ kv.2.symlinks.getD []) ∧
          (∀ x ∈ kv.2.symlinks.getD [], x ∈ w.symlinks.getD []))) := by
  rw [verifyFileWatchesOfAffectingLocations, verifyMap_eq_true]
  constructor
  · rintro ⟨h1, h2⟩
    exact ⟨fun kv hkv => verifyFileWatcher_some_left.mp (h1 kv hkv),
           fun kv hkv => verifyFileWatcher_some_right.mp (h2 kv hkv)⟩
  · rintro ⟨h1, h2⟩
    exact ⟨fun kv hkv => verifyFileWatcher_some_left.mpr (h1 kv hkv),
           fun kv hkv => verifyFileWatcher_some_right.mpr (h2 kv hkv)⟩

/-- Claim C6 counterexample: two file watchers whose resolution sets are NOT
related by the cross-reference maps, yet whose comparison by the source code
succeeds, because the code compares the `resolutions` and `files` fields
(reference counts) with plain equality and never consults the
cross-reference maps; the spec-modelled check the claim describes fails on
the same input. -/
theorem fileWatch_crossref_claim_cx :
    verifyFileWatchesOfAffectingLocations
        (toCodeWatchMap [("/pkg", ⟨[1], [], none⟩)])
        (toCodeWatchMap [("/pkg", ⟨[2], [], none⟩)]) = true ∧
    verifyFileWatchesPerSpecClaim [(1, 7)] [(2, 9)]
        [("/pkg", ⟨[1], [], none⟩)] [("/pkg", ⟨[2], [], none⟩)] = false := by
  exact ⟨by decide, by decide⟩

theorem verifyDocumentRegistryEntry_iff {expected : Option (List (Nat × Nat))}
    {entry : DocumentRegistryEntryModel} :
    verifyDocumentRegistryEntry expected entry = true ↔ RegistryEntryAgrees expected entry := by
  cases entry with
  | perKind entries =>
    simp only [verifyDocumentRegistryEntry, RegistryEntryAgrees, Bool.and_eq_true,
      List.all_eq_true, beq_iff_eq]
    constructor
    · rintro ⟨h1, h2⟩; exact ⟨fun kv hkv => (h1 kv hkv).symm, h2⟩
    · rintro ⟨h1, h2⟩; exact ⟨fun kv hkv => (h1 kv hkv).symm, h2⟩
  | single kind rc =>
    cases expected with
    | none => simp [verifyDocumentRegistryEntry, RegistryEntryAgrees]
    | some l =>
      cases l with
      | nil => simp [verifyDocumentRegistryEntry, RegistryEntryAgrees]
      | cons h t =>
        cases t with
        | cons h2 t2 => simp [verifyDocumentRegistryEntry, RegistryEntryAgrees]
        | nil =>
          obtain ⟨k, v⟩ := h
          by_cases hk : kind = k
          · subst hk
            simp [verifyDocumentRegistryEntry, RegistryEntryAgrees, List.lookup]
          · have hbeq : (kind == k) = false := beq_false_of_ne hk
            simp [verifyDocumentRegistryEntry, RegistryEntryAgrees, List.lookup, hbeq,
              Ne.symm hk]

/-- Claim C7: the document-registry check succeeds exactly when, for every
bucket key and path in the registry, a single shared entry matches a tally
of exactly its script kind with its languageServiceRefCount, a per-kind map
matches the tally kind-by-kind in both directions, every tallied path exists
in its registry bucket, and every tallied bucket key exists in the
registry. -/
theorem documentRegistry_stats_iff (buckets : DocumentRegistryBuckets)
    (stats : DocumentRegistryExpectedStats) :
    verifyDocumentRegistryStats buckets stats = true ↔
      ((∀ bk ∈ buckets,
         (∀ pe ∈ bk.2,
            RegistryEntryAgrees ((List.lookup bk.1 stats).bind (fun l => List.lookup pe.1 l)) pe.2) ∧
         (∀ pv ∈ (List.lookup bk.1 stats).getD [], (List.lookup pv.1 bk.2).isSome = true)) ∧
       (∀ sv ∈ stats, (List.lookup sv.1 buckets).isSome = true)) := by
  simp only [verifyDocumentRegistryStats, Bool.and_eq_true, List.all_eq_true,
    verifyDocumentRegistryEntry_iff]

/-- Claim C10: when the collection-phase assertions succeed, every file path
with an entry in the live resolvedModuleNames or
resolvedTypeReferenceDirectives caches is a source file of the program or is
the automatic type-directive containing file's path (so a cache entry for
any other path makes the verification fail). -/
theorem collect_checks_only_program_files (cache : ResolutionCacheState)
    (prog : ProgramState) (inferredTypesPath : TsPath)
    (h : collectCacheChecks cache prog inferredTypesPath = true) :
    ∀ pc ∈ cache.resolvedModuleNames ++ cache.resolvedTypeReferenceDirectives,
      (getSourceFileByPath prog pc.1).isSome = true ∨ pc.1 = inferredTypesPath := by
  simp only [collectCacheChecks, collectEntryChecks, Bool.and_eq_true, List.all_eq_true,
    Bool.or_eq_true, beq_iff_eq] at h
  intro pc hpc
  rcases List.mem_append.mp hpc with hm | ht
  · rcases (h.1 pc hm).1 with h' | h'
    · exact Or.inl h'
    · exact Or.inr h'.symm
  · rcases (h.2 pc ht).1 with h' | h'
    · exact Or.inl h'
    · exact Or.inr h'.symm

/-- Witness for claim C10 at a concrete one-file cache and program. -/
theorem collect_checks_only_program_files_witness :
    collectCacheChecks ⟨[("/a.ts", [(("m", none), 5)])], [], [], [], [], [], [], []⟩
        cxProg3 "/itp" = true ∧
    ∀ pc ∈ ([("/a.ts", [(("m", (none : TsResolutionMode)), 5)])] :
        List (TsPath × ModeAwareCache)) ++ ([] : List (TsPath × ModeAwareCache)),
      (getSourceFileByPath cxProg3 pc.1).isSome = true ∨ pc.1 = "/itp" :=
  ⟨by decide,
   collect_checks_only_program_files
     ⟨[("/a.ts", [(("m", none), 5)])], [], [], [], [], [], [], []⟩ cxProg3 "/itp" (by decide)⟩

theorem verifyResolutionIsInCache_iff {cache : Option ModeAwareCache} {r : RId}
    {name : String} {mode : TsResolutionMode} :
    verifyResolutionIsInCache cache r name mode = true ↔
      ProgramResolutionInCache cache r name mode := by
  by_cases h : r = emptyResolutionId
  · simp [verifyResolutionIsInCache, ProgramResolutionInCache, h]
  · simp [verifyResolutionIsInCache, ProgramResolutionInCache, h, bne_iff_ne]

theorem verifyProgramResolutionsInCache_iff {flag : Bool} {cache : ResolutionCacheState}
    {prog : ProgramState} {itp : TsPath} :
    verifyProgramResolutionsInCache flag cache prog itp = true ↔
      ((flag = false → ∀ pr ∈ flatResolutions prog.resolvedModules,
          ProgramResolutionInCache (List.lookup pr.1 cache.resolvedModuleNames)
            pr.2.2 pr.2.1.1 pr.2.1.2) ∧
       (∀ pr ∈ flatResolutions prog.resolvedTypeReferenceDirectives,
          ProgramResolutionInCache (List.lookup pr.1 cache.resolvedTypeReferenceDirectives)
            pr.2.2 pr.2.1.1 pr.2.1.2) ∧
       (∀ kr ∈ prog.automaticTypeDirectiveResolutions,
          ProgramResolutionInCache (List.lookup itp cache.resolvedTypeReferenceDirectives)
            kr.2 kr.1.1 kr.1.2)) := by
  cases flag <;>
    simp [verifyProgramResolutionsInCache, List.all_eq_true, verifyResolutionIsInCache_iff,
      and_assoc]

/-- Claim C3 (amended): the program/cache agreement passes succeed exactly
when (a) unless userResolvedModuleNames is set, every module resolution the
program reports satisfies the in-cache condition (identical entry for
non-sentinel, no entry for the sentinel), (b) every reported type-reference
and automatic type-directive resolution satisfies the same condition
unconditionally, and (c) in the converse direction, every resolution stored
in the live per-file caches is identical to the one the program reports for
that (file, name, mode), with the cached file being in the program or the
automatic type-directive file. -/
theorem cache_program_agreement_amended (flag : Bool) (cache : ResolutionCacheState)
    (prog : ProgramState) (itp : TsPath) :
    (verifyProgramResolutionsInCache flag cache prog itp &&
      collectCacheChecks cache prog itp) = true ↔
      ((flag = false → ∀ pr ∈ flatResolutions prog.resolvedModules,
          ProgramResolutionInCache (List.lookup pr.1 cache.resolvedModuleNames)
            pr.2.2 pr.2.1.1 pr.2.1.2) ∧
       (∀ pr ∈ flatResolutions prog.resolvedTypeReferenceDirectives,
          ProgramResolutionInCache (List.lookup pr.1 cache.resolvedTypeReferenceDirectives)
            pr.2.2 pr.2.1.1 pr.2.1.2) ∧
       (∀ kr ∈ prog.automaticTypeDirectiveResolutions,
          ProgramResolutionInCache (List.lookup itp cache.resolvedTypeReferenceDirectives)
            kr.2 kr.1.1 kr.1.2) ∧
       (∀ pc ∈ cache.resolvedModuleNames,
          ((getSourceFileByPath prog pc.1).isSome = true ∨ itp = pc.1) ∧
          ∀ kv ∈ pc.2, getProgramModuleResolution prog pc.1 kv.1.1 kv.1.2 = some kv.2) ∧
       (∀ pc ∈ cache.resolvedTypeReferenceDirectives,
          ((getSourceFileByPath prog pc.1).isSome = true ∨ itp = pc.1) ∧
          ∀ kv ∈ pc.2,
            getProgramTypeRefResolution prog itp pc.1 kv.1.1 kv.1.2 = some kv.2)) := by
  rw [Bool.and_eq_true, verifyProgramResolutionsInCache_iff]
  simp only [collectCacheChecks, collectEntryChecks, Bool.and_eq_true, List.all_eq_true,
    Bool.or_eq_true, beq_iff_eq, and_assoc]
  constructor
  · rintro ⟨h1, h2, h3, h4, h5⟩
    exact ⟨h1, h2, h3,
      fun pc hpc => ⟨(h4 pc hpc).1, fun kv hkv => ((h4 pc hpc).2 kv hkv).symm⟩,
      fun pc hpc => ⟨(h5 pc hpc).1, fun kv hkv => ((h5 pc hpc).2 kv hkv).symm⟩⟩
  · rintro ⟨h1, h2, h3, h4, h5⟩
    exact ⟨h1, h2, h3,
      fun pc hpc => ⟨(h4 pc hpc).1, fun kv hkv => ((h4 pc hpc).2 kv hkv).symm⟩,
      fun pc hpc => ⟨(h5 pc hpc).1, fun kv hkv => ((h5 pc hpc).2 kv hkv).symm⟩⟩

/-- Claim C3 counterexample: with userResolvedModuleNames set, the complete
verification succeeds on a program that reports a non-sentinel module
resolution for a key at which the live cache has no entry at all, so the
claimed unconditional program-to-cache assertion is not made. -/
theorem cache_program_agreement_claim_cx :
    (verifyResolutionCacheModel exRes exCache cxProg3 "/itp" (fun l => l) true).1 = true ∧
    ("/a.ts", (("m", (none : TsResolutionMode)), (5 : RId))) ∈
      flatResolutions cxProg3.resolvedModules ∧
    (5 : RId) ≠ emptyResolutionId ∧
    ((List.lookup "/a.ts" exCache.resolvedModuleNames).bind
      (fun c => maGet c "m" none)) ≠ some 5 := by
  exact ⟨by decide, by decide, by decide, by decide⟩

/-- Claim C4 (amended): when the program-to-cache pass succeeds, every
(file, name, mode) whose program resolution is the emptyResolution sentinel
has no entry in the live per-file cache, for type references and automatic
type references always, and for modules when userResolvedModuleNames is not
set. -/
theorem sentinel_nonmaterialization_amended (flag : Bool) (cache : ResolutionCacheState)
    (prog : ProgramState) (itp : TsPath)
    (h : verifyProgramResolutionsInCache flag cache prog itp = true) :
    (∀ pr ∈ flatResolutions prog.resolvedTypeReferenceDirectives,
        pr.2.2 = emptyResolutionId →
        ((List.lookup pr.1 cache.resolvedTypeReferenceDirectives).map
          (fun c => maHas c pr.2.1.1 pr.2.1.2)).getD false = false) ∧
    (∀ kr ∈ prog.automaticTypeDirectiveResolutions, kr.2 = emptyResolutionId →
        ((List.lookup itp cache.resolvedTypeReferenceDirectives).map
          (fun c => maHas c kr.1.1 kr.1.2)).getD false = false) ∧
    (flag = false → ∀ pr ∈ flatResolutions prog.resolvedModules,
        pr.2.2 = emptyResolutionId →
        ((List.lookup pr.1 cache.resolvedModuleNames).map
          (fun c => maHas c pr.2.1.1 pr.2.1.2)).getD false = false) := by
  rw [verifyProgramResolutionsInCache_iff] at h
  obtain ⟨h1, h2, h3⟩ := h
  refine ⟨fun pr hpr hs => ?_, fun kr hkr hs => ?_, fun hf pr hpr hs => ?_⟩
  · have := h2 pr hpr; rwa [ProgramResolutionInCache, if_pos hs] at this
  · have := h3 kr hkr; rwa [ProgramResolutionInCache, if_pos hs] at this
  · have := h1 hf pr hpr; rwa [ProgramResolutionInCache, if_pos hs] at this

/-- Witness for the amended claim C4 at a concrete program reporting the
sentinel for a module name against an empty cache. -/
theorem sentinel_nonmaterialization_amended_witness :
    verifyProgramResolutionsInCache false exCache prog4 "/itp" = true ∧
    (false = false → ∀ pr ∈ flatResolutions prog4.resolvedModules,
        pr.2.2 = emptyResolutionId →
        ((List.lookup pr.1 exCache.resolvedModuleNames).map
          (fun c => maHas c pr.2.1.1 pr.2.1.2)).getD false = false) :=
  ⟨by decide,
   (sentinel_nonmaterialization_amended false exCache prog4 "/itp" (by decide)).2.2⟩

/-- Claim C4 counterexample: with userResolvedModuleNames set, the complete
verification succeeds on a live cache that has materialized the sentinel as
a module cache entry for a key whose program resolution is the sentinel, so
the claimed unconditional no-entry assertion is not made. -/
theorem sentinel_materialization_claim_cx :
    (verifyResolutionCacheModel res4 cache4 prog4 "/itp" (fun l => l) true).1 = true ∧
    getProgramModuleResolution prog4 "/a.ts" "m" none = some emptyResolutionId ∧
    ((List.lookup "/a.ts" cache4.resolvedModuleNames).map
      (fun c => maHas c "m" none)).getD false = true := by
  exact ⟨by decide, by decide, by decide⟩

/-- Claim C8: the modelled verifyResolutionCache returns the live resolution
cache and the live program unchanged: every mutation of the replay is
applied to the internally created shadow cache only, so on success the
verification has no observable effect on its inputs. -/
theorem verifier_preserves_live_inputs (res : RId → ResolutionData)
    (cache : ResolutionCacheState) (prog : ProgramState) (itp : TsPath)
    (inferredLibPath : String → TsPath) (flag : Bool) :
    (verifyResolutionCacheModel res cache prog itp inferredLibPath flag).2 = (cache, prog) :=
  rfl

/-- Claim C9: verifyProgramStructure succeeds exactly when the serializations
of the two programs are byte-for-byte equal, and getProgramStructure is
deterministic: structurally equal programs serialize to the same string. -/
theorem programStructure_comparator_spec (res : RId → ResolutionData) :
    (∀ e a : ProgramState, verifyProgramStructure res e a = true ↔
        getProgramStructure res (some a) = getProgramStructure res (some e)) ∧
    (∀ pone ptwo : ProgramState, pone = ptwo →
        getProgramStructure res (some pone) = getProgramStructure res (some ptwo)) := by
  refine ⟨fun e a => ?_, fun pone ptwo h => by rw [h]⟩
  simp [verifyProgramStructure]

/-- Witness for claim C9 at a concrete one-file program. -/
theorem programStructure_comparator_spec_witness :
    (verifyProgramStructure exRes cxProg3 cxProg3 = true) ∧
    getProgramStructure exRes (some cxProg3) = getProgramStructure exRes (some cxProg3) :=
  ⟨((programStructure_comparator_spec exRes).1 cxProg3 cxProg3).mpr rfl,
   (programStructure_comparator_spec exRes).2 cxProg3 cxProg3 rfl⟩
